import Mathlib

/-!
# Verification of the JATA extension core (Selector Engine, Relay, Popup Controller)

Shallow embedding of the three isolated components of the jata-v2 browser
extension core, translated from the TypeScript sources:

* `src/apps/extension/src/contentScripts/scraper.ts` — the Selector Engine:
  the CSS-locator algorithm `createCssSelector`, the scraper state machine
  (`startScraping`, `cleanup`, `mouseoverHandler`, `clickHandler`, the
  Escape `keydownHandler`), the overlay (`createOverlay`), and the content
  side of the message protocol.
* `src/apps/extension/src/background.ts` — the Relay message router.
* `src/apps/extension/src/App.tsx` — the message listener of the Popup Controller
  and in-memory record.

DOM elements are identified by natural numbers where only identity matters;
the upward DOM structure needed by the locator walk is embedded as a zipper
(`Loc`).  Everything is computable so that concrete runs evaluate by
`decide` / `rfl`.
-/

namespace Jata

/-! ## DOM model for the locator algorithm

`createCssSelector` (scraper.ts lines 14–42) reads, for each element it
visits: `tagName`, `id`, `classList`, and the `children` array of the parent.
A `Node` carries exactly that per-element data (`tagName` as the DOM
reports it, i.e. uppercase for HTML elements), and a `Loc` places an
element in its document: either it has no `parentElement` (`top`), or it
sits between sibling lists `left` and `right` under a parent location.

`indexOf` in the source compares by object identity, so the clicked
element occurs exactly once in the `children` list of its parent; in the zipper its
1-based index among same-tag siblings is (number of same-tag nodes in
`left`) + 1, because `Array.prototype.filter` preserves order. -/

structure Node where
  tagName : String
  id : String
  classes : List String
  deriving DecidableEq, Repr

/-- Models `String.prototype.toLowerCase` restricted to the ASCII range that
HTML tag names use, written over the character list so that the kernel can
evaluate it on concrete pages. -/
def lowerString (s : String) : String :=
  ⟨s.data.map Char.toLower⟩

inductive Loc where
  | top (n : Node)
  | child (n : Node) (left right : List Node) (parent : Loc)
  deriving DecidableEq, Repr

/-- The node at a location. -/
def Loc.node : Loc → Node
  | .top n => n
  | .child n _ _ _ => n

/-- Descriptor for one visited node that has no id, exactly as the loop body
of `createCssSelector` builds it: lowercased tag, `.class1.class2...` when
the joined class string is nonempty (the JS truthiness test `if (classes)`),
and `:nth-of-type(k)` when more than one sibling under the same parent
shares the tag. -/
def descBase (n : Node) : String :=
  let base := lowerString n.tagName
  let classes := String.intercalate "." n.classes
  if classes ≠ "" then base ++ "." ++ classes else base

def descFor (n : Node) (left right : List Node) : String :=
  if (((left ++ [n]) ++ right).filter (fun s => s.tagName = n.tagName)).length > 1 then
    descBase n ++ ":nth-of-type(" ++
      toString ((left.filter (fun s => s.tagName = n.tagName)).length + 1) ++ ")"
  else descBase n

/-- The list `parts` of `createCssSelector`, in the order the source leaves
it (root-most first; each iteration `unshift`s).  The `while
(el.parentElement)` loop never visits a node without a parent, and a
nonempty `id` (JS truthiness of `el.id`) terminates the walk with `tag#id`
and discards all ancestors (`break`). -/
def selectorParts : Loc → List String
  | .top _ => []
  | .child n left right parent =>
    if n.id ≠ "" then [lowerString n.tagName ++ "#" ++ n.id]
    else selectorParts parent ++ [descFor n left right]

/-- Models `Array.prototype.join` with separator " > ". -/
def joinParts : List String → String
  | [] => ""
  | [p] => p
  | p :: q :: rest => p ++ " > " ++ joinParts (q :: rest)

/-- Implements `createCssSelector` (scraper.ts lines 14–42): joins `parts` with " > ". -/
def createCssSelector (loc : Loc) : String :=
  joinParts (selectorParts loc)

/-! ### Concrete page fragments used in the scenarios -/

/-- The `<html>` root element: no `parentElement`. -/
def htmlNode : Node := ⟨"HTML", "", []⟩

/-- The `<body>` element under the root. -/
def bodyLoc : Loc := .child ⟨"BODY", "", []⟩ [] [] (.top htmlNode)

/-- An `<h1 id="title">` element directly under `<body>`. -/
def h1TitleLoc : Loc := .child ⟨"H1", "title", []⟩ [] [] bodyLoc

/-- A `<ul>` element under `<body>`. -/
def ulLoc : Loc := .child ⟨"UL", "", []⟩ [] [] bodyLoc

/-- The second of two `<li class="item">` siblings under the `<ul>`. -/
def secondLiLoc : Loc := .child ⟨"LI", "", ["item"]⟩ [⟨"LI", "", ["item"]⟩] [] ulLoc

/-! ## Selector Engine state machine

Embedding of the module state of `scraper.ts`: the global `scraperState`
(lines 47–51), document-level listener registrations, the overlay nodes
appended to `document.body`, the body cursor, and the per-element `outline`
style.  `addEventListener` with the same handler reference (and capture
flag) is a no-op per the DOM spec; `mouseoverHandler` and `clickHandler`
are module-level constants, while each `startScraping` call creates a
fresh `keydownHandler` closure, embedded as `HandlerRef.keydownClosure`
with a counter for freshness. -/

/-- A document-level listener registration. -/
inductive HandlerRef where
  | mouseover
  | click
  | keydownClosure (gen : Nat)
  deriving DecidableEq, Repr

/-- Embeds `scraperState` (scraper.ts lines 47–51).  `overlay` holds a handle to
the appended overlay node, `highlightedEl` the element whose outline the
engine set. -/
structure ScraperVars where
  isActive : Bool
  overlay : Option Unit
  highlightedEl : Option Nat
  deriving DecidableEq, Repr

/-- The content process state: `scraperState` plus the page resources it
touches. `overlays` counts overlay nodes in the DOM; `outlines` records
explicit inline `outline` assignments (most recent first); `nextClosure`
generates fresh `keydownHandler` closures. -/
structure SysState where
  scraper : ScraperVars
  listeners : List HandlerRef
  overlays : Nat
  cursor : String
  outlines : List (Nat × String)
  nextClosure : Nat
  deriving DecidableEq, Repr

/-- Models `document.addEventListener`: registering an already-registered handler
is a no-op. -/
def addListener (ls : List HandlerRef) (h : HandlerRef) : List HandlerRef :=
  if ls.contains h then ls else ls ++ [h]

/-- Assigns the inline `outline` style of an element. -/
def setOutline (outlines : List (Nat × String)) (e : Nat) (v : String) :
    List (Nat × String) :=
  (e, v) :: outlines

/-- Reads the inline `outline` style of an element (unset reads as `""`). -/
def getOutline (outlines : List (Nat × String)) (e : Nat) : String :=
  ((outlines.lookup e).getD "")

/-- Implements `cleanup` (scraper.ts lines 56–72): early-returns when not active;
otherwise removes the `mouseover` and `click` registrations, removes the
overlay node held in `scraperState.overlay`, clears the highlighted
outline of the highlighted element, replaces `scraperState` wholesale, and sets the body
cursor to `"default"`.  It does not touch any `keydown` registration. -/
def cleanup (s : SysState) : SysState :=
  if s.scraper.isActive then
    { scraper := ⟨false, none, none⟩
      listeners := (s.listeners.erase .mouseover).erase .click
      overlays := if s.scraper.overlay.isSome then s.overlays - 1 else s.overlays
      cursor := "default"
      outlines := match s.scraper.highlightedEl with
        | some e => setOutline s.outlines e ""
        | none => s.outlines
      nextClosure := s.nextClosure }
  else s

/-- Implements `mouseoverHandler` (scraper.ts lines 78–91), invoked with the event
target `e`: returns unchanged when `e` is already highlighted, otherwise
clears the previous highlight and outlines `e`. -/
def mouseoverHandler (s : SysState) (e : Nat) : SysState :=
  if s.scraper.highlightedEl = some e then s
  else
    let cleared := match s.scraper.highlightedEl with
      | some old => setOutline s.outlines old ""
      | none => s.outlines
    { s with
      scraper := { s.scraper with highlightedEl := some e }
      outlines := setOutline cleared e "2px solid #f43f5e" }

/-- A mouseover event dispatches to `mouseoverHandler` only while that
handler is registered on the document. -/
def stepMouseover (s : SysState) (e : Nat) : SysState :=
  if s.listeners.contains .mouseover then mouseoverHandler s e else s

/-- The result message `clickHandler` sends:
with action "elementSelected" and the selector and text payload. -/
structure OutMsg where
  action : String
  selector : String
  textContent : String
  deriving DecidableEq, Repr

/-- Implements `clickHandler` (scraper.ts lines 98–117), invoked with the clicked
location and raw text of the clicked element: builds the selector, trims
the text (empty when absent), emits the "elementSelected" message, and
runs `cleanup`. -/
def clickHandler (s : SysState) (loc : Loc) (text : String) :
    SysState × List OutMsg :=
  (cleanup s, [⟨"elementSelected", createCssSelector loc, text.trim⟩])

/-- A click event reaches `clickHandler` only while it is registered. -/
def stepClick (s : SysState) (loc : Loc) (text : String) :
    SysState × List OutMsg :=
  if s.listeners.contains .click then clickHandler s loc text else (s, [])

/-- An Escape keydown fires every registered `keydownHandler` closure
(scraper.ts lines 163–169) in registration order; each removes itself and
calls `cleanup`.  No message is sent on this path. -/
def stepEscape (s : SysState) : SysState × List OutMsg :=
  let ks := s.listeners.filter (fun h => match h with
    | .keydownClosure _ => true
    | _ => false)
  (ks.foldl (fun st k => cleanup { st with listeners := st.listeners.erase k }) s, [])

/-- Implements `startScraping` (scraper.ts lines 146–171): no-op while already active;
otherwise flips `isActive`, appends the overlay, sets the crosshair
cursor, registers `mouseoverHandler`, `clickHandler`, and a fresh
`keydownHandler` closure. -/
def startScraping (s : SysState) : SysState :=
  if s.scraper.isActive then s
  else
    { s with
      scraper := { isActive := true, overlay := some (), highlightedEl := s.scraper.highlightedEl }
      overlays := s.overlays + 1
      cursor := "crosshair"
      listeners := addListener (addListener (addListener s.listeners .mouseover) .click)
        (.keydownClosure s.nextClosure)
      nextClosure := s.nextClosure + 1 }

/-- The content-side `chrome.runtime.onMessage` listener (scraper.ts lines
176–185): `startScraping` and `cancelScraping` commands, each acknowledged
with a status string; other actions leave the state alone and answer
nothing. -/
def onMessageContent (s : SysState) (action : String) : SysState × Option String :=
  if action = "startScraping" then (startScraping s, some "Scraping started")
  else if action = "cancelScraping" then (cleanup s, some "Scraping canceled")
  else (s, none)

/-- A freshly injected page: Idle, no listeners, no overlay, default page
styling. -/
def freshState : SysState :=
  { scraper := ⟨false, none, none⟩
    listeners := []
    overlays := 0
    cursor := ""
    outlines := []
    nextClosure := 0 }

/-! ## Overlay style and pointer-event hit testing

`createOverlay` (scraper.ts lines 122–141) assigns inline styles to the
overlay `div` one property at a time.  `OverlayStyle` records every
property the source assigns; a property never assigned keeps the CSSOM
default `""` (which for `pointer-events` means the computed value `auto`).

Standard CSS hit testing: a `position:fixed` element pinned at the
viewport origin with `100vw × 100vh` extent covers every viewport point;
among boxes covering a point, pointer and click events target the one
painted on top (here the overlay: largest `z-index`, appended last to
`body`), unless its computed `pointer-events` is `none`, in which case the
box is transparent to hit testing and the event targets the underlying
element. -/

structure OverlayStyle where
  position : String := ""
  top : String := ""
  left : String := ""
  width : String := ""
  height : String := ""
  backgroundColor : String := ""
  color : String := ""
  display : String := ""
  justifyContent : String := ""
  alignItems : String := ""
  zIndex : String := ""
  fontFamily : String := ""
  fontSize : String := ""
  pointerEvents : String := ""
  deriving DecidableEq, Repr

/-- The style assignments of `createOverlay` (scraper.ts lines 125–137).
`pointer-events` is never assigned. -/
def createOverlayStyle : OverlayStyle :=
  { position := "fixed"
    top := "0"
    left := "0"
    width := "100vw"
    height := "100vh"
    backgroundColor := "rgba(0, 0, 0, 0.5)"
    color := "white"
    display := "flex"
    justifyContent := "center"
    alignItems := "center"
    zIndex := "999999"
    fontFamily := "sans-serif"
    fontSize := "24px" }

/-- Whether the overlay box covers the whole viewport. -/
def coversViewport (st : OverlayStyle) : Bool :=
  st.position = "fixed" && st.top = "0" && st.left = "0" &&
    st.width = "100vw" && st.height = "100vh"

/-- The overlay participates in hit testing unless `pointer-events:none`. -/
def receivesPointerEvents (st : OverlayStyle) : Bool :=
  st.pointerEvents ≠ "none"

/-- The overlay intercepts a pointer/click event at every viewport point
iff it covers the viewport and is not hit-test transparent. -/
def overlayIntercepts (st : OverlayStyle) : Bool :=
  coversViewport st && receivesPointerEvents st

/-- The target a dispatched pointer/click event reports. -/
inductive HitTarget where
  | overlayNode
  | pageElement (e : Nat)
  deriving DecidableEq, Repr

/-- Hit test at a viewport point during Active: the topmost box is the
overlay (z-index 999999, appended last); `underlying` is the page element
beneath that point. -/
def hitTarget (st : OverlayStyle) (underlying : Nat) : HitTarget :=
  if overlayIntercepts st then .overlayNode else .pageElement underlying

/-! ## Relay (background.ts)

The `chrome.runtime.onMessage` listener of `background.ts` (lines 36–71).
The kind of sender is visible as `sender.tab`: present exactly when the
message came from a content script.  `chrome.tabs.query({active:true,
currentWindow:true})` yields the active-tab list; the code reads `tabs[0]`
and tests `activeTab && activeTab.id` (JS truthiness: an id must be
present and nonzero).  `chrome.tabs.sendMessage` either sets
`runtime.lastError` (content process absent / not listening), modelled as
`none`, or produces the reply of the content process.  The listener is a total
function — every branch ends in a data-valued response or a deliberate
drop, never a thrown fault. -/

structure Sender where
  tab : Option Nat
  deriving DecidableEq, Repr

structure Tab where
  id : Option Nat
  deriving DecidableEq, Repr

/-- A reply value travelling back over the message channel. -/
inductive Reply where
  | statusMsg (s : String)
  | errorMsg (e : String)
  deriving DecidableEq, Repr

/-- The browser environment the relay consults: the active-tab list and,
per tab id, the reply of the content process to a forwarded message (`none`
when `chrome.runtime.lastError` would be set because no content script is
listening there). -/
structure RelayEnv where
  activeTabs : List Tab
  contentReply : Nat → String → Option Reply

/-- What one invocation of the relay listener does: the forwards it issues
and the response it sends back (`none` = it never calls `sendResponse`). -/
structure RelayOutcome where
  forwards : List (Nat × String)
  response : Option Reply
  deriving DecidableEq, Repr

/-- JS truthiness of `activeTab.id`. -/
def tabIdTruthy : Option Nat → Bool
  | some i => i ≠ 0
  | none => false

/-- The relay listener (background.ts lines 36–71) on a message with the
given `action`, as a function of the sender and the browser environment. -/
def relayOnMessage (env : RelayEnv) (sender : Sender) (action : String) :
    RelayOutcome :=
  if sender.tab.isSome then
    { forwards := [], response := none }
  else
    match env.activeTabs.head? with
    | some t =>
      if tabIdTruthy t.id then
        match t.id with
        | some i =>
          { forwards := [(i, action)]
            response := some (match env.contentReply i action with
              | none => .errorMsg "Content script not available or not listening."
              | some r => r) }
        | none => { forwards := [], response := some (.errorMsg "No active tab found.") }
      else
        { forwards := [], response := some (.errorMsg "No active tab found.") }
    | none => { forwards := [], response := some (.errorMsg "No active tab found.") }

/-! ## Popup Controller (App.tsx)

The in-memory record, the pending-field state `isScraping`, and the
`messageListener` of `App.tsx` (lines 41–60).  The listener acts only when
the action equals "elementSelected" and `message.data` and `isScraping` are (all
three JS-truthy): it merges `message.data.textContent` into the pending
field, clears the pending field, and replies with status "success";
otherwise it does nothing and sends no response. -/

inductive Field where
  | jobTitle
  | companyName
  | jobUrl
  | jobDescription
  deriving DecidableEq, Repr

structure ApplicationData where
  jobTitle : String
  companyName : String
  jobUrl : String
  jobDescription : String
  deriving DecidableEq, Repr

def emptyApplicationData : ApplicationData := ⟨"", "", "", ""⟩

/-- Models the merge done by the state update of `setData`: writes the captured text into the pending field. -/
def updateField (d : ApplicationData) (f : Field) (v : String) : ApplicationData :=
  match f with
  | .jobTitle => { d with jobTitle := v }
  | .companyName => { d with companyName := v }
  | .jobUrl => { d with jobUrl := v }
  | .jobDescription => { d with jobDescription := v }

structure PopupState where
  data : ApplicationData
  isScraping : Option Field
  deriving DecidableEq, Repr

/-- A runtime message as the popup sees it; `data` is `none` when the
message carries no (truthy) `data` payload. -/
structure PopupMsg where
  action : String
  data : Option (String × String)
  deriving DecidableEq, Repr

/-- Implements `messageListener` (App.tsx lines 42–53).  Returns the new popup state
and the response it sends (`none` = `sendResponse` never called). -/
def messageListener (p : PopupState) (m : PopupMsg) :
    PopupState × Option String :=
  match m.data, p.isScraping with
  | some d, some f =>
    if m.action = "elementSelected" then
      ({ data := updateField p.data f d.2, isScraping := none }, some "success")
    else (p, none)
  | _, _ => (p, none)

/-- The popup view of a scraper output message. -/
def toPopupMsg (m : OutMsg) : PopupMsg :=
  ⟨m.action, some (m.selector, m.textContent)⟩

/-- Deliver a list of scraper messages to the popup in order (each message
is also seen by the relay, which drops content-script messages —
see `relayOnMessage`). -/
def processMsgs (p : PopupState) (msgs : List OutMsg) : PopupState :=
  msgs.foldl (fun st m => (messageListener st (toPopupMsg m)).1) p

/-- Iterates the "start" command `n` times (the state part of a run of
consecutive start commands with no intervening exit). -/
def applyStarts : Nat → SysState → SysState
  | 0, s => s
  | n + 1, s => startScraping (applyStarts n s)

/-! ## Theorems -/

/-- Joining a list that ends in `d` produces a string ending in `d`. -/
theorem joinParts_append_last (xs : List String) (d : String) :
    ∃ pre, joinParts (xs ++ [d]) = pre ++ d := by
  induction xs with
  | nil => exact ⟨"", rfl⟩
  | cons x xs ih =>
    cases xs with
    | nil => exact ⟨x ++ " > ", rfl⟩
    | cons y ys =>
      obtain ⟨pre, hpre⟩ := ih
      refine ⟨x ++ " > " ++ pre, ?_⟩
      show x ++ " > " ++ joinParts ((y :: ys) ++ [d]) = x ++ " > " ++ pre ++ d
      rw [hpre]
      simp [String.append_assoc]

/-- Running `startScraping` always leaves the engine Active. -/
theorem startScraping_isActive (s : SysState) :
    (startScraping s).scraper.isActive = true := by
  cases h : s.scraper.isActive with
  | true => simp [startScraping, h]
  | false => simp [startScraping, h]

/-- Running `startScraping` on an Active state is a no-op. -/
theorem startScraping_fix (s : SysState) (h : s.scraper.isActive = true) :
    startScraping s = s := by
  simp [startScraping, h]

/-- Any positive number of consecutive start commands equals a single one. -/
theorem applyStarts_succ (n : Nat) (s : SysState) :
    applyStarts (n + 1) s = startScraping s := by
  induction n with
  | zero => rfl
  | succ m ih =>
    show startScraping (applyStarts (m + 1) s) = startScraping s
    rw [ih, startScraping_fix _ (startScraping_isActive s)]

/-- C1: refuted on the code — `createOverlay` never assigns
`pointer-events`, so the full-viewport fixed overlay at z-index 999999
intercepts every pointer-move and click during Active: the dispatched
event targets the overlay node, never the underlying page element. -/
theorem overlay_intercepts_every_pointer_event :
    createOverlayStyle.pointerEvents = "" ∧
    overlayIntercepts createOverlayStyle = true ∧
    (∀ e : Nat, hitTarget createOverlayStyle e = HitTarget.overlayNode) ∧
    (∀ e : Nat, hitTarget createOverlayStyle e ≠ HitTarget.pageElement e) :=
  ⟨rfl, by decide, fun _ => rfl, fun e h => by simp [hitTarget] at h; revert h; decide⟩

/-- C3: code bug, evaluated at the failing input — after a cycle exited by
click (start; mouseover on element 5; click on the h1), `cleanup` has
removed the overlay, the outline, the crosshair cursor, and the mouseover
and click listeners, but the keydown/Escape listener of the cycle is still
registered and still fires on a later Escape; the `cancelScraping` exit
path leaks it the same way. -/
theorem cleanup_leaves_keydown_listener_after_click :
    (stepClick (stepMouseover (startScraping freshState) 5) h1TitleLoc
        "Staff Engineer").1 =
      { scraper := ⟨false, none, none⟩
        listeners := [HandlerRef.keydownClosure 0]
        overlays := 0
        cursor := "default"
        outlines := [(5, ""), (5, "2px solid #f43f5e")]
        nextClosure := 1 } ∧
    getOutline (stepClick (stepMouseover (startScraping freshState) 5) h1TitleLoc
        "Staff Engineer").1.outlines 5 = "" ∧
    (stepEscape (stepClick (stepMouseover (startScraping freshState) 5) h1TitleLoc
        "Staff Engineer").1).1.listeners = [] ∧
    (onMessageContent (startScraping freshState) "cancelScraping").1.listeners =
      [HandlerRef.keydownClosure 0] := by
  decide

/-- C8: counterexample — clicking the document root (no parent element)
produces zero descriptors and the empty locator, not a single descriptor:
the `while (el.parentElement)` loop body never runs. -/
theorem root_locator_single_descriptor_cex :
    selectorParts (Loc.top htmlNode) = [] ∧
    (selectorParts (Loc.top htmlNode)).length ≠ 1 ∧
    createCssSelector (Loc.top htmlNode) = "" := by
  decide

/-- C8 amended: if the clicked element is the document root, the walk
terminates immediately with no descriptors, yielding the empty locator. -/
theorem root_locator_empty (n : Node) :
    selectorParts (Loc.top n) = [] ∧ createCssSelector (Loc.top n) = "" :=
  ⟨rfl, rfl⟩

/-- C9: when the popup receives any message while no field is pending, the
record and the waiting state are unchanged and no response (in particular
no success status) is sent. -/
theorem popup_discards_result_when_not_pending (p : PopupState) (m : PopupMsg)
    (h : p.isScraping = none) :
    messageListener p m = (p, none) := by
  cases hd : m.data <;> simp [messageListener, h, hd]

/-- Witness for C9 at a concrete discarded `elementSelected` message. -/
theorem popup_discards_result_when_not_pending_witness :
    messageListener ⟨emptyApplicationData, none⟩
        ⟨"elementSelected", some ("h1#title", "Staff Engineer")⟩ =
      (⟨emptyApplicationData, none⟩, none) :=
  popup_discards_result_when_not_pending _ _ rfl

/-- C10: `cleanup` invoked while Idle is a total no-op — the early return
leaves the scraper state and the page untouched — and the `cancelScraping`
command still acknowledges with "Scraping canceled". -/
theorem cleanup_idle_noop (s : SysState) (h : s.scraper.isActive = false) :
    cleanup s = s ∧
    onMessageContent s "cancelScraping" = (s, some "Scraping canceled") := by
  have hc : cleanup s = s := by simp [cleanup, h]
  refine ⟨hc, ?_⟩
  unfold onMessageContent
  rw [if_neg (by decide), if_pos rfl, hc]

/-- Witness for C10 on the freshly injected Idle page. -/
theorem cleanup_idle_noop_witness :
    cleanup freshState = freshState ∧
    onMessageContent freshState "cancelScraping" =
      (freshState, some "Scraping canceled") :=
  cleanup_idle_noop freshState rfl

/-- C4: the locator walk — a node with an id yields exactly `tag#id` and
terminates the walk regardless of its ancestors; a node without an id
among two or more same-tag siblings gets the 1-based `:nth-of-type(k)`
qualifier appended (k = its position among the same-tag siblings), and it
ends the locator; concretely, the `<h1 id="title">` yields "h1#title" and
the second of two `<li class="item">` siblings yields a locator ending in
"li.item:nth-of-type(2)". -/
theorem createCssSelector_locator_shape :
    (∀ (n : Node) (l r : List Node) (p : Loc), n.id ≠ "" →
      createCssSelector (.child n l r p) = lowerString n.tagName ++ "#" ++ n.id) ∧
    (∀ (n : Node) (l r : List Node) (p : Loc), n.id = "" →
      1 < (((l ++ [n]) ++ r).filter (fun s => s.tagName = n.tagName)).length →
      ∃ pre : String, createCssSelector (.child n l r p) =
        pre ++ ":nth-of-type(" ++
          toString ((l.filter (fun s => s.tagName = n.tagName)).length + 1) ++ ")") ∧
    createCssSelector h1TitleLoc = "h1#title" ∧
    createCssSelector secondLiLoc = "body > ul > li.item:nth-of-type(2)" := by
  refine ⟨?_, ?_, by decide, by decide⟩
  · intro n l r p h
    simp [createCssSelector, selectorParts, h, joinParts]
  · intro n l r p h hlen
    have hparts : selectorParts (.child n l r p) =
        selectorParts p ++ [descFor n l r] := by
      simp [selectorParts, h]
    have hdesc : descFor n l r =
        descBase n ++ ":nth-of-type(" ++
          toString ((l.filter (fun s => s.tagName = n.tagName)).length + 1) ++ ")" := by
      unfold descFor
      rw [if_pos hlen]
    obtain ⟨q, hq⟩ := joinParts_append_last (selectorParts p) (descFor n l r)
    refine ⟨q ++ descBase n, ?_⟩
    unfold createCssSelector
    rw [hparts, hq, hdesc]
    simp [String.append_assoc]

/-- Witness for C4: the id clause instantiated at the `<h1 id="title">`
element and the nth-of-type clause at the second `<li class="item">`. -/
theorem createCssSelector_locator_shape_witness :
    (createCssSelector (Loc.child ⟨"H1", "title", []⟩ [] [] bodyLoc) =
      lowerString "H1" ++ "#" ++ "title") ∧
    ∃ pre : String, createCssSelector
        (Loc.child ⟨"LI", "", ["item"]⟩ [⟨"LI", "", ["item"]⟩] [] ulLoc) =
      pre ++ ":nth-of-type(" ++
        toString ((([(⟨"LI", "", ["item"]⟩ : Node)].filter
          (fun s => s.tagName = "LI")).length + 1)) ++ ")" :=
  ⟨createCssSelector_locator_shape.1 ⟨"H1", "title", []⟩ [] [] bodyLoc (by decide),
   createCssSelector_locator_shape.2.1 ⟨"LI", "", ["item"]⟩ [⟨"LI", "", ["item"]⟩] []
     ulLoc (by decide) (by decide)⟩

/-- C5: the relay drops every message whose sender is a content process
(a sender with a tab): it forwards nothing and sends no response, for all
message contents and all browser environments. -/
theorem relay_drops_content_script_messages (env : RelayEnv) (sender : Sender)
    (action : String) (h : sender.tab.isSome = true) :
    relayOnMessage env sender action = { forwards := [], response := none } := by
  simp [relayOnMessage, h]

/-- Witness for C5 at a concrete content-script sender. -/
theorem relay_drops_content_script_messages_witness :
    relayOnMessage ⟨[⟨some 3⟩], fun _ _ => none⟩ ⟨some 7⟩ "elementSelected" =
      { forwards := [], response := none } :=
  relay_drops_content_script_messages _ _ _ rfl

/-- C6: for a UI-process message, the relay answers with the explicit
"No active tab found." error value when the active-tab list is empty,
with the explicit "Content script not available or not listening." error
value when the first active tab has no listening content process, and
otherwise relays the reply of the content process verbatim.  Every branch
produces a data value; the listener is a total function, so no fault is
raised. -/
theorem relay_ui_message_responses (env : RelayEnv) (action : String)
    (hids : ∀ t ∈ env.activeTabs, ∃ i, t.id = some i ∧ i ≠ 0) :
    (env.activeTabs = [] →
      relayOnMessage env ⟨none⟩ action =
        { forwards := [], response := some (.errorMsg "No active tab found.") }) ∧
    (∀ t rest i, env.activeTabs = t :: rest → t.id = some i →
      (env.contentReply i action = none →
        relayOnMessage env ⟨none⟩ action =
          { forwards := [(i, action)]
            response :=
              some (.errorMsg "Content script not available or not listening.") }) ∧
      (∀ rep, env.contentReply i action = some rep →
        relayOnMessage env ⟨none⟩ action =
          { forwards := [(i, action)], response := some rep })) := by
  constructor
  · intro hnil
    simp [relayOnMessage, hnil]
  · intro t rest i hcons hid
    have hi0 : i ≠ 0 := by
      obtain ⟨j, hj, hj0⟩ := hids t (by rw [hcons]; exact List.mem_cons_self t rest)
      rw [hid] at hj
      cases hj
      exact hj0
    constructor
    · intro hnone
      simp [relayOnMessage, hcons, hid, tabIdTruthy, hi0, hnone]
    · intro rep hrep
      simp [relayOnMessage, hcons, hid, tabIdTruthy, hi0, hrep]

/-- Witness for C6: the empty-tab error, the unavailable-content error,
and verbatim relaying, each at a concrete environment. -/
theorem relay_ui_message_responses_witness :
    relayOnMessage ⟨[], fun _ _ => none⟩ ⟨none⟩ "startScraping" =
      { forwards := [], response := some (.errorMsg "No active tab found.") } ∧
    relayOnMessage ⟨[⟨some 3⟩], fun _ _ => none⟩ ⟨none⟩ "startScraping" =
      { forwards := [(3, "startScraping")]
        response :=
          some (.errorMsg "Content script not available or not listening.") } ∧
    relayOnMessage ⟨[⟨some 3⟩], fun _ _ => some (.statusMsg "Scraping started")⟩
        ⟨none⟩ "startScraping" =
      { forwards := [(3, "startScraping")]
        response := some (.statusMsg "Scraping started") } := by
  refine ⟨?_, ?_, ?_⟩
  · exact (relay_ui_message_responses ⟨[], fun _ _ => none⟩ "startScraping"
      (by intro t ht; simp at ht)).1 rfl
  · exact (((relay_ui_message_responses ⟨[⟨some 3⟩], fun _ _ => none⟩ "startScraping"
      (by intro t ht; simp at ht; subst ht; exact ⟨3, rfl, by decide⟩)).2
        ⟨some 3⟩ [] 3 rfl rfl).1) rfl
  · exact (((relay_ui_message_responses
      ⟨[⟨some 3⟩], fun _ _ => some (.statusMsg "Scraping started")⟩ "startScraping"
      (by intro t ht; simp at ht; subst ht; exact ⟨3, rfl, by decide⟩)).2
        ⟨some 3⟩ [] 3 rfl rfl).2) _ rfl

/-- C7: a "start" command while already Active leaves the state unchanged
and still acknowledges "Scraping started"; any positive run of consecutive
start commands from a clean Idle page yields exactly one overlay node and
each listener registered exactly once. -/
theorem start_command_idempotent :
    (∀ s : SysState, s.scraper.isActive = true →
      onMessageContent s "startScraping" = (s, some "Scraping started")) ∧
    (∀ s : SysState,
      (onMessageContent s "startScraping").2 = some "Scraping started") ∧
    (∀ (s : SysState) (n : Nat),
      s.scraper.isActive = false → s.listeners = [] → s.overlays = 0 →
      (applyStarts (n + 1) s).overlays = 1 ∧
      (applyStarts (n + 1) s).listeners =
        [HandlerRef.mouseover, HandlerRef.click,
         HandlerRef.keydownClosure s.nextClosure]) := by
  refine ⟨?_, ?_, ?_⟩
  · intro s h
    unfold onMessageContent
    rw [if_pos rfl, startScraping_fix s h]
  · intro s
    unfold onMessageContent
    rw [if_pos rfl]
  · intro s n h1 h2 h3
    rw [applyStarts_succ]
    refine ⟨?_, ?_⟩ <;>
      simp [startScraping, h1, h2, h3, addListener, List.contains]

/-- Witness for C7: a second start on the already-Active fresh page is a
pure acknowledgment, and two consecutive starts from the fresh Idle page
leave one overlay and single registrations. -/
theorem start_command_idempotent_witness :
    onMessageContent (startScraping freshState) "startScraping" =
      (startScraping freshState, some "Scraping started") ∧
    (applyStarts 2 freshState).overlays = 1 ∧
    (applyStarts 2 freshState).listeners =
      [HandlerRef.mouseover, HandlerRef.click,
       HandlerRef.keydownClosure freshState.nextClosure] :=
  ⟨start_command_idempotent.1 _ (by decide),
   (start_command_idempotent.2.2 freshState 1 (by decide) (by decide) (by decide)).1,
   (start_command_idempotent.2.2 freshState 1 (by decide) (by decide) (by decide)).2⟩

/-- C2: counterexample — a concrete cancelled cycle (popup pending
jobTitle, engine Active, Escape pressed): the Escape path emits no message
at all, so after the cycle the pending field of the Popup Controller is
still set, not cleared as the claim states (the record is indeed
untouched). -/
theorem escape_leaves_popup_pending_cex :
    (stepEscape (startScraping freshState)).2 = [] ∧
    processMsgs ⟨emptyApplicationData, some Field.jobTitle⟩
        (stepEscape (startScraping freshState)).2 =
      ⟨emptyApplicationData, some Field.jobTitle⟩ ∧
    (processMsgs ⟨emptyApplicationData, some Field.jobTitle⟩
        (stepEscape (startScraping freshState)).2).isScraping ≠ none ∧
    (stepEscape (startScraping freshState)).1.scraper.isActive = false := by
  decide

/-- C2 amended: on an Escape cancellation the content process sends no
message to the popup, so the pending field of the Popup Controller remains
set (it is not cleared) and no field of the in-memory record is updated. -/
theorem escape_cancellation_keeps_pending (s : SysState) (p : PopupState)
    (f : Field) (hs : s.scraper.isActive = true) (hp : p.isScraping = some f) :
    (stepEscape s).2 = [] ∧
    processMsgs p (stepEscape s).2 = p ∧
    (processMsgs p (stepEscape s).2).isScraping = some f ∧
    (processMsgs p (stepEscape s).2).data = p.data := by
  refine ⟨rfl, rfl, ?_, rfl⟩
  exact hp

/-- Witness for C2 amended at the concrete cancelled cycle. -/
theorem escape_cancellation_keeps_pending_witness :
    (stepEscape (startScraping freshState)).2 = [] ∧
    processMsgs ⟨emptyApplicationData, some Field.jobTitle⟩
        (stepEscape (startScraping freshState)).2 =
      ⟨emptyApplicationData, some Field.jobTitle⟩ ∧
    (processMsgs ⟨emptyApplicationData, some Field.jobTitle⟩
        (stepEscape (startScraping freshState)).2).isScraping =
      some Field.jobTitle ∧
    (processMsgs ⟨emptyApplicationData, some Field.jobTitle⟩
        (stepEscape (startScraping freshState)).2).data = emptyApplicationData :=
  escape_cancellation_keeps_pending (startScraping freshState)
    ⟨emptyApplicationData, some Field.jobTitle⟩ Field.jobTitle (by decide) rfl

end Jata
